import Mathlib

/-
Verification of the single-leader quorum-replicated key-value store
implemented in `src/app.py` (FastAPI service).

The embedding is a shallow one:

* the Python dict `store` becomes an association list `Store` with
  first-occurrence lookup and in-place overwrite, matching dict semantics
  when keys are unique;
* the environment configuration read at import time becomes a `Config`
  record;
* one replication task (the coroutine `replicate_to_follower(url)`)
  becomes a `Task`: the absolute time (relative to dispatch) at which the
  coroutine finishes, together with the outcome of its HTTP call;
* the event loop's `asyncio.wait(..., return_when=FIRST_COMPLETED)` is
  modelled by selecting the pending task with the least completion time;
* the handlers `put_key`, `replicate_key` and `get_key` become pure
  functions from configuration, store and task behaviour to an outcome
  record that also exposes the persistence calls made, the tasks
  dispatched, the tasks left running detached, and the time at which the
  handler returns.
-/

namespace ReplKV

/-- The in-memory key-value map `store : Dict[str, str]` of `app.py`,
as an association list: lookup returns the first binding, update
overwrites the first binding in place (Python dict semantics for
unique keys). -/
abbrev Store := List (String × String)

/-- `store[key] = value`: overwrite the first binding of `key`, or append
a new binding at the end (Python dict insertion order). -/
def Store.set : Store → String → String → Store
  | [], k, v => [(k, v)]
  | (k', v') :: rest, k, v =>
      if k' = k then (k, v) :: rest else (k', v') :: Store.set rest k v

/-- `store[key]` / `key in store`: first binding of `key`, if any. -/
def Store.get? : Store → String → Option String
  | [], _ => none
  | (k', v') :: rest, k => if k' = k then some v' else Store.get? rest k

/-- The environment configuration of `app.py`, already parsed:
`ROLE`, `WRITE_QUORUM`, `FOLLOWER_URLS`, `GLOBAL_REQUEST_TIMEOUT_S`.
Quorum is an `Int` (Python `int(os.getenv(...))` may be negative);
time is modelled in integer ticks (`ℤ`), which supports every ordering
and deadline comparison the handlers make. -/
structure Config where
  ROLE : String
  WRITE_QUORUM : ℤ
  FOLLOWER_URLS : List String
  GLOBAL_REQUEST_TIMEOUT_S : ℤ
deriving DecidableEq

/-- Outcome of the single HTTP POST made by `replicate_to_follower`:
either a response with a status code, or a transport error, or the
per-call `httpx` timeout firing. -/
inductive HttpResult where
  | response (status : ℕ)
  | transportError
  | timeout
deriving DecidableEq

/-- `httpx.Response.raise_for_status()`: succeeds exactly on a 2xx
status, raises `HTTPStatusError` otherwise. -/
def raise_for_status (status : ℕ) : Except Unit Unit :=
  if 200 ≤ status ∧ status ≤ 299 then Except.ok () else Except.error ()

/-- Body of `replicate_to_follower` in `put_key`: perform the POST,
call `raise_for_status`, return `True`; any exception (transport error,
timeout, non-2xx status) is caught and folded into `False`. -/
def replicate_to_follower (r : HttpResult) : Bool :=
  match r with
  | .response s =>
      match raise_for_status s with
      | .ok _ => true
      | .error _ => false
  | .transportError => false
  | .timeout => false

/-- One replication task created by `asyncio.create_task`: the time
(counted from dispatch) at which the coroutine reaches a terminal state,
and the result of its HTTP call. -/
structure Task where
  time : ℤ
  call : HttpResult
deriving DecidableEq

/-- The boolean a finished task resolves to. -/
def Task.ok (t : Task) : Bool := replicate_to_follower t.call

/-- State in which the semi-sync wait loop of `put_key` exits:
the running success count, the tasks still pending (left running,
never cancelled), and the loop's current clock when it returns. -/
structure LoopResult where
  successes : ℕ
  pending : List Task
  now : ℤ
deriving DecidableEq

/-- `asyncio.wait(pending, return_when=FIRST_COMPLETED)`: select the
pending task with the least completion time (first listed wins ties),
returning it together with the remaining pending tasks. -/
def minTask : Task → List Task → Task × List Task
  | t, [] => (t, [])
  | t, u :: rest =>
      if u.time < t.time then
        let p := minTask u rest
        (p.1, t :: p.2)
      else
        let p := minTask t rest
        (p.1, u :: p.2)

theorem minTask_length (l : List Task) (t : Task) :
    (minTask t l).2.length = l.length := by
  induction l generalizing t with
  | nil => rfl
  | cons u rest ih =>
      by_cases h : u.time < t.time <;> simp [minTask, h, ih]

/-- The semi-sync wait loop of `put_key` (the `while pending and
successes < quorum` loop): before each wait recompute
`time_left = GLOBAL_REQUEST_TIMEOUT_S - (now - start_time)` and break if
it is non-positive; wait for the first completion, breaking at the
deadline if the earliest pending completion lies beyond it; count a
success per task resolving `True`; stop as soon as `successes ≥ quorum`.
The tasks still pending on exit are returned, not cancelled. The `fuel`
argument only bounds the iteration count for structural recursion; every
iteration consumes one pending task, so `runSemiSync` below supplies
`pending.length` and the fuel never runs out. -/
def semiSyncLoop (deadline : ℤ) (quorum : ℤ) :
    ℕ → List Task → ℤ → ℕ → LoopResult
  | 0, pending, now, successes => ⟨successes, pending, now⟩
  | _ + 1, [], now, successes => ⟨successes, [], now⟩
  | fuel + 1, t :: rest, now, successes =>
      if quorum ≤ (successes : ℤ) then ⟨successes, t :: rest, now⟩
      else if deadline - now ≤ 0 then ⟨successes, t :: rest, now⟩
      else if deadline < (minTask t rest).1.time then
        ⟨successes, t :: rest, deadline⟩
      else
        semiSyncLoop deadline quorum fuel (minTask t rest).2
          (max now (minTask t rest).1.time)
          (if (minTask t rest).1.ok then successes + 1 else successes)

/-- The whole semi-sync wait of `put_key`: run the loop on the freshly
dispatched tasks, with clock 0 and zero successes. -/
def runSemiSync (deadline : ℤ) (quorum : ℤ) (tasks : List Task) :
    LoopResult :=
  semiSyncLoop deadline quorum tasks.length tasks 0 0

/-- Result of a `PUT /kv/{key}` request, as `app.py` reports it:
the 400 role rejection, the 200 body `{"status": "ok", "replicated_to": n}`,
or one of the two 500 bodies with their `success=` and `required=`
detail fields. -/
inductive PutResult where
  | roleViolation
  | ok (replicated_to : ℕ)
  | fullReplicationFailed (success : ℕ) (required : ℤ)
  | quorumNotReached (success : ℕ) (required : ℤ)
deriving DecidableEq

/-- Everything observable about one `put_key` call: the store afterwards,
the reported result, the snapshots passed to `save_store_to_disk`, the
tasks dispatched via `asyncio.create_task`, the tasks still running when
the handler returns, and the time at which it returns. -/
structure PutOutcome where
  store : Store
  result : PutResult
  persisted : List Store
  dispatched : List Task
  detached : List Task
  returnedAt : ℤ
deriving DecidableEq

/-- `follower_count = len(FOLLOWER_URLS)` (as `ℤ` for the comparisons). -/
def follower_count (cfg : Config) : ℤ := cfg.FOLLOWER_URLS.length

/-- `quorum = min(WRITE_QUORUM, follower_count)`. -/
def effQuorum (cfg : Config) : ℤ := min cfg.WRITE_QUORUM (follower_count cfg)

/-- The time `asyncio.gather(*tasks)` returns: when the last task has
reached a terminal state. -/
def gatherTime (tasks : List Task) : ℤ :=
  tasks.foldr (fun t acc => max t.time acc) 0

/-- The handler `put_key` of `app.py`, line by line: reject non-leaders
with 400; write locally and persist; compute the effective quorum and
return `ok 0` with no dispatch when there is nothing to replicate;
dispatch one task per follower; in the full-sync case gather all tasks
and compare the success count to the quorum; otherwise run the semi-sync
wait loop and compare its success count to the quorum. `behavior` gives
the task the environment produces for each follower URL. -/
def put_key (cfg : Config) (store : Store) (key value : String)
    (behavior : String → Task) : PutOutcome :=
  if cfg.ROLE ≠ "leader" then
    ⟨store, .roleViolation, [], [], [], 0⟩
  else
    let store1 := Store.set store key value
    if follower_count cfg = 0 ∨ effQuorum cfg ≤ 0 then
      ⟨store1, .ok 0, [store1], [], [], 0⟩
    else
      let tasks := cfg.FOLLOWER_URLS.map behavior
      if effQuorum cfg = follower_count cfg then
        let successes := tasks.countP (fun t => t.ok)
        if (successes : ℤ) < effQuorum cfg then
          ⟨store1, .fullReplicationFailed successes (effQuorum cfg),
            [store1], tasks, [], gatherTime tasks⟩
        else
          ⟨store1, .ok successes, [store1], tasks, [], gatherTime tasks⟩
      else
        let r := runSemiSync cfg.GLOBAL_REQUEST_TIMEOUT_S (effQuorum cfg)
          tasks
        if (r.successes : ℤ) < effQuorum cfg then
          ⟨store1, .quorumNotReached r.successes (effQuorum cfg),
            [store1], tasks, r.pending, r.now⟩
        else
          ⟨store1, .ok r.successes, [store1], tasks, r.pending, r.now⟩

/-- Result of a `POST /replicate/{key}` request. The constructor
`roleViolation` exists to state the specified rejection; the handler in
`app.py` never produces it. -/
inductive ReplicateResult where
  | ok
  | roleViolation
deriving DecidableEq

/-- Everything observable about one `replicate_key` call. -/
structure ReplicateOutcome where
  store : Store
  result : ReplicateResult
  persisted : List Store
deriving DecidableEq

/-- The handler `replicate_key` of `app.py`: unconditionally
`store[key] = payload.value`, persist, answer `{"status": "ok"}`.
It takes the configuration (the handler closes over `ROLE`) but never
consults it: there is no role check on this endpoint. -/
def replicate_key (cfg : Config) (store : Store) (key value : String) :
    ReplicateOutcome :=
  let _ := cfg
  let store1 := Store.set store key value
  ⟨store1, .ok, [store1]⟩

/-- The handler `get_key` of `app.py`: 404 when the key is absent,
otherwise the stored value. -/
def get_key (store : Store) (key : String) : Except Unit String :=
  match Store.get? store key with
  | none => Except.error ()
  | some v => Except.ok v

/-! ### Lemmas about the store -/

theorem Store.get?_set_self (st : Store) (k v : String) :
    (st.set k v).get? k = some v := by
  induction st with
  | nil => simp [Store.set, Store.get?]
  | cons p rest ih =>
      by_cases h : p.1 = k <;> simp [Store.set, Store.get?, h, ih]

theorem Store.get?_set_ne (st : Store) (k v k' : String) (h : k' ≠ k) :
    (st.set k v).get? k' = st.get? k' := by
  induction st with
  | nil => simp [Store.set, Store.get?, h, Ne.symm h]
  | cons p rest ih =>
      by_cases hp : p.1 = k
      · simp [Store.set, Store.get?, hp, h, Ne.symm h, ih]
      · by_cases hp' : p.1 = k' <;>
          simp [Store.set, Store.get?, hp, hp', h, Ne.symm h, ih]

/-! ### Lemmas about `minTask` (the FIRST_COMPLETED selection) -/

theorem minTask_perm (l : List Task) (t : Task) :
    List.Perm ((minTask t l).1 :: (minTask t l).2) (t :: l) := by
  induction l generalizing t with
  | nil => exact List.Perm.refl _
  | cons u rest ih =>
      by_cases h : u.time < t.time
      · simp only [minTask, if_pos h]
        exact (List.Perm.swap t (minTask u rest).1 (minTask u rest).2).trans
          ((ih u).cons t)
      · simp only [minTask, if_neg h]
        exact ((List.Perm.swap u (minTask t rest).1 (minTask t rest).2).trans
          ((ih t).cons u)).trans (List.Perm.swap t u rest)

theorem minTask_min (l : List Task) (t : Task) :
    ∀ x ∈ t :: l, (minTask t l).1.time ≤ x.time := by
  induction l generalizing t with
  | nil =>
      intro x hx
      simp only [List.mem_cons, List.not_mem_nil, or_false] at hx
      subst hx; simp [minTask]
  | cons u rest ih =>
      intro x hx
      simp only [List.mem_cons] at hx
      by_cases h : u.time < t.time
      · simp only [minTask, if_pos h]
        rcases hx with h1 | h1 | h1
        · rw [h1]; exact le_of_lt (lt_of_le_of_lt (ih u u (by simp)) h)
        · rw [h1]; exact ih u u (by simp)
        · exact ih u x (by simp [h1])
      · simp only [minTask, if_neg h]
        rcases hx with h1 | h1 | h1
        · rw [h1]; exact ih t t (by simp)
        · rw [h1]; exact le_trans (ih t t (by simp)) (le_of_not_lt h)
        · exact ih t x (by simp [h1])

theorem minTask_mem {l : List Task} {t x : Task}
    (hx : x ∈ (minTask t l).2) : x ∈ t :: l :=
  (minTask_perm l t).mem_iff.mp (List.mem_cons_of_mem _ hx)

/-! ### Invariants of the semi-sync wait loop -/

/-- The loop increments the success count one completion at a time and
re-checks the quorum after each increment, so starting at or below the
quorum it can never overshoot it. -/
theorem semiSyncLoop_successes_le (d : ℤ) (q : ℤ) (fuel : ℕ) :
    ∀ (l : List Task) (now : ℤ) (s : ℕ), (s : ℤ) ≤ q →
      ((semiSyncLoop d q fuel l now s).successes : ℤ) ≤ q := by
  induction fuel with
  | zero => intro l now s h; exact h
  | succ fuel ih =>
      intro l now s h
      cases l with
      | nil => exact h
      | cons t rest =>
          by_cases h1 : q ≤ (s : ℤ)
          · simp only [semiSyncLoop, if_pos h1]; exact h
          · by_cases h2 : d - now ≤ 0
            · simp only [semiSyncLoop, if_neg h1, if_pos h2]; exact h
            · by_cases h3 : d < (minTask t rest).1.time
              · simp only [semiSyncLoop, if_neg h1, if_neg h2, if_pos h3]
                exact h
              · simp only [semiSyncLoop, if_neg h1, if_neg h2, if_neg h3]
                apply ih
                by_cases hok : (minTask t rest).1.ok = true <;>
                  simp [hok] <;> omega

/-- Every task still pending when the loop exits completes no earlier
than the loop's exit clock: the coordinator has not waited for it. -/
theorem semiSyncLoop_pending_time (d : ℤ) (q : ℤ) (fuel : ℕ) :
    ∀ (l : List Task) (now : ℤ) (s : ℕ), (∀ x ∈ l, now ≤ x.time) →
      (∀ x ∈ (semiSyncLoop d q fuel l now s).pending,
          (semiSyncLoop d q fuel l now s).now ≤ x.time) ∧
        now ≤ (semiSyncLoop d q fuel l now s).now := by
  induction fuel with
  | zero => intro l now s h; exact ⟨h, le_refl now⟩
  | succ fuel ih =>
      intro l now s h
      cases l with
      | nil => exact ⟨h, le_refl now⟩
      | cons t rest =>
          by_cases h1 : q ≤ (s : ℤ)
          · simp only [semiSyncLoop, if_pos h1]
            exact ⟨h, le_refl now⟩
          · by_cases h2 : d - now ≤ 0
            · simp only [semiSyncLoop, if_neg h1, if_pos h2]
              exact ⟨h, le_refl now⟩
            · by_cases h3 : d < (minTask t rest).1.time
              · simp only [semiSyncLoop, if_neg h1, if_neg h2, if_pos h3]
                refine ⟨fun x hx =>
                  le_of_lt (lt_of_lt_of_le h3 (minTask_min rest t x hx)), ?_⟩
                have := not_le.mp h2
                linarith
              · simp only [semiSyncLoop, if_neg h1, if_neg h2, if_neg h3]
                have hpre : ∀ x ∈ (minTask t rest).2,
                    max now (minTask t rest).1.time ≤ x.time := fun x hx =>
                  max_le (h x (minTask_mem hx))
                    (minTask_min rest t x (minTask_mem hx))
                obtain ⟨ha, hb⟩ := ih (minTask t rest).2
                  (max now (minTask t rest).1.time)
                  (if (minTask t rest).1.ok then s + 1 else s) hpre
                exact ⟨ha, le_trans (le_max_left _ _) hb⟩

/-- The loop only ever counts a success for a task whose completion time
lies within the global deadline: late tasks contribute nothing. -/
theorem semiSyncLoop_successes_bound (d : ℤ) (q : ℤ) (fuel : ℕ) :
    ∀ (l : List Task) (now : ℤ) (s : ℕ),
      (semiSyncLoop d q fuel l now s).successes ≤
        s + l.countP (fun x => x.ok && decide (x.time ≤ d)) := by
  induction fuel with
  | zero => intro l now s; exact Nat.le_add_right s _
  | succ fuel ih =>
      intro l now s
      cases l with
      | nil => exact Nat.le_add_right s _
      | cons t rest =>
          by_cases h1 : q ≤ (s : ℤ)
          · simp only [semiSyncLoop, if_pos h1]; exact Nat.le_add_right s _
          · by_cases h2 : d - now ≤ 0
            · simp only [semiSyncLoop, if_neg h1, if_pos h2]
              exact Nat.le_add_right s _
            · by_cases h3 : d < (minTask t rest).1.time
              · simp only [semiSyncLoop, if_neg h1, if_neg h2, if_pos h3]
                exact Nat.le_add_right s _
              · simp only [semiSyncLoop, if_neg h1, if_neg h2, if_neg h3]
                refine le_trans (ih _ _ _) ?_
                have hperm := List.Perm.countP_eq
                  (fun x => x.ok && decide (x.time ≤ d)) (minTask_perm rest t)
                simp only [List.countP_cons] at hperm ⊢
                have hmle : (minTask t rest).1.time ≤ d := le_of_not_lt h3
                by_cases hok : (minTask t rest).1.ok = true
                · have hp : ((minTask t rest).1.ok &&
                      decide ((minTask t rest).1.time ≤ d)) = true := by
                    simp [hok, hmle]
                  rw [if_pos hok]
                  rw [if_pos hp] at hperm
                  omega
                · have hokf : (minTask t rest).1.ok = false := by
                    revert hok; cases (minTask t rest).1.ok <;> simp
                  have hp : ¬ (((minTask t rest).1.ok &&
                      decide ((minTask t rest).1.time ≤ d)) = true) := by
                    simp [hokf]
                  rw [if_neg hok]
                  rw [if_neg hp] at hperm
                  omega

/-- Specialization to the loop as `put_key` runs it. -/
theorem runSemiSync_successes_le (d : ℤ) (q : ℤ) (tasks : List Task)
    (h : 0 ≤ q) : ((runSemiSync d q tasks).successes : ℤ) ≤ q :=
  semiSyncLoop_successes_le d q tasks.length tasks 0 0 (by simpa using h)

/-- Specialization to the loop as `put_key` runs it. -/
theorem runSemiSync_pending_time (d : ℤ) (q : ℤ) (tasks : List Task)
    (h : ∀ x ∈ tasks, (0 : ℤ) ≤ x.time) :
    ∀ x ∈ (runSemiSync d q tasks).pending,
      (runSemiSync d q tasks).now ≤ x.time :=
  (semiSyncLoop_pending_time d q tasks.length tasks 0 0 h).1

/-- Specialization to the loop as `put_key` runs it. -/
theorem runSemiSync_successes_bound (d : ℤ) (q : ℤ) (tasks : List Task) :
    (runSemiSync d q tasks).successes ≤
      tasks.countP (fun x => x.ok && decide (x.time ≤ d)) := by
  have := semiSyncLoop_successes_bound d q tasks.length tasks 0 0
  simpa using this

/-! ### Branch characterizations of `put_key` -/

theorem put_key_notLeader (cfg : Config) (store : Store) (k v : String)
    (behavior : String → Task) (h : cfg.ROLE ≠ "leader") :
    put_key cfg store k v behavior = ⟨store, .roleViolation, [], [], [], 0⟩ := by
  simp only [put_key]
  rw [if_pos h]

theorem put_key_noReplication (cfg : Config) (store : Store) (k v : String)
    (behavior : String → Task) (hrole : cfg.ROLE = "leader")
    (h : follower_count cfg = 0 ∨ effQuorum cfg ≤ 0) :
    put_key cfg store k v behavior =
      ⟨Store.set store k v, .ok 0, [Store.set store k v], [], [], 0⟩ := by
  simp only [put_key]
  rw [if_neg (by simp [hrole]), if_pos h]

theorem put_key_fullSync (cfg : Config) (store : Store) (k v : String)
    (behavior : String → Task) (hrole : cfg.ROLE = "leader")
    (hpos : 0 < effQuorum cfg) (hq : effQuorum cfg = follower_count cfg) :
    put_key cfg store k v behavior =
      if (((cfg.FOLLOWER_URLS.map behavior).countP (fun t => t.ok)) : ℤ)
          < effQuorum cfg then
        ⟨Store.set store k v,
          .fullReplicationFailed
            ((cfg.FOLLOWER_URLS.map behavior).countP (fun t => t.ok))
            (effQuorum cfg),
          [Store.set store k v], cfg.FOLLOWER_URLS.map behavior, [],
          gatherTime (cfg.FOLLOWER_URLS.map behavior)⟩
      else
        ⟨Store.set store k v,
          .ok ((cfg.FOLLOWER_URLS.map behavior).countP (fun t => t.ok)),
          [Store.set store k v], cfg.FOLLOWER_URLS.map behavior, [],
          gatherTime (cfg.FOLLOWER_URLS.map behavior)⟩ := by
  have hno : ¬ (follower_count cfg = 0 ∨ effQuorum cfg ≤ 0) := by
    push_neg
    exact ⟨fun h0 => by rw [h0] at hq; omega, hpos⟩
  simp only [put_key]
  rw [if_neg (by simp [hrole]), if_neg hno, if_pos hq]

theorem put_key_semiSync (cfg : Config) (store : Store) (k v : String)
    (behavior : String → Task) (hrole : cfg.ROLE = "leader")
    (hpos : 0 < effQuorum cfg) (hlt : effQuorum cfg < follower_count cfg) :
    put_key cfg store k v behavior =
      if ((runSemiSync cfg.GLOBAL_REQUEST_TIMEOUT_S (effQuorum cfg)
          (cfg.FOLLOWER_URLS.map behavior)).successes : ℤ) < effQuorum cfg then
        ⟨Store.set store k v,
          .quorumNotReached
            (runSemiSync cfg.GLOBAL_REQUEST_TIMEOUT_S (effQuorum cfg)
              (cfg.FOLLOWER_URLS.map behavior)).successes
            (effQuorum cfg),
          [Store.set store k v], cfg.FOLLOWER_URLS.map behavior,
          (runSemiSync cfg.GLOBAL_REQUEST_TIMEOUT_S (effQuorum cfg)
            (cfg.FOLLOWER_URLS.map behavior)).pending,
          (runSemiSync cfg.GLOBAL_REQUEST_TIMEOUT_S (effQuorum cfg)
            (cfg.FOLLOWER_URLS.map behavior)).now⟩
      else
        ⟨Store.set store k v,
          .ok (runSemiSync cfg.GLOBAL_REQUEST_TIMEOUT_S (effQuorum cfg)
            (cfg.FOLLOWER_URLS.map behavior)).successes,
          [Store.set store k v], cfg.FOLLOWER_URLS.map behavior,
          (runSemiSync cfg.GLOBAL_REQUEST_TIMEOUT_S (effQuorum cfg)
            (cfg.FOLLOWER_URLS.map behavior)).pending,
          (runSemiSync cfg.GLOBAL_REQUEST_TIMEOUT_S (effQuorum cfg)
            (cfg.FOLLOWER_URLS.map behavior)).now⟩ := by
  have hno : ¬ (follower_count cfg = 0 ∨ effQuorum cfg ≤ 0) := by
    push_neg
    exact ⟨fun h0 => by rw [h0] at hlt; omega, hpos⟩
  have hne : ¬ (effQuorum cfg = follower_count cfg) := by omega
  simp only [put_key]
  rw [if_neg (by simp [hrole]), if_neg hno, if_neg hne]

/-- On any leader write the resulting store is the local overwrite,
whatever the followers do and however replication is reported. -/
theorem put_key_store_eq (cfg : Config) (store : Store) (k v : String)
    (behavior : String → Task) (hrole : cfg.ROLE = "leader") :
    (put_key cfg store k v behavior).store = Store.set store k v := by
  simp only [put_key]
  rw [if_neg (by simp [hrole])]
  split_ifs <;> rfl

/-- On any leader write exactly one persistence snapshot is taken, of the
store just after the local apply. -/
theorem put_key_persisted_eq (cfg : Config) (store : Store) (k v : String)
    (behavior : String → Task) (hrole : cfg.ROLE = "leader") :
    (put_key cfg store k v behavior).persisted = [Store.set store k v] := by
  simp only [put_key]
  rw [if_neg (by simp [hrole])]
  split_ifs <;> rfl

/-! ### The claims -/

/-- C1 (counterexample): the spec claims a node configured as Leader
rejects `ApplyFromLeader` with RoleViolation and leaves its store
unchanged. The handler `replicate_key` has no role check: on a leader
configuration it answers ok and writes the key, so the claim is false. -/
theorem C1_counterexample :
    (replicate_key ⟨"leader", 3, [], 5⟩ [] "k" "v").result
        = ReplicateResult.ok ∧
    (replicate_key ⟨"leader", 3, [], 5⟩ [] "k" "v").store.get? "k"
        = some "v" ∧
    ¬ ((replicate_key ⟨"leader", 3, [], 5⟩ [] "k" "v").result
          = ReplicateResult.roleViolation ∧
        (replicate_key ⟨"leader", 3, [], 5⟩ [] "k" "v").store = []) := by
  decide

/-- C1 (amended): an `ApplyFromLeader` (`POST /replicate/{key}`)
submitted to a node of any configured role, a Leader included, is
accepted: no role check is performed, the store entry for the key is set
to the value, the new store is persisted, and ok is returned. -/
theorem C1_replicate_no_role_check (cfg : Config) (store : Store)
    (k v : String) :
    (replicate_key cfg store k v).result = ReplicateResult.ok ∧
    (replicate_key cfg store k v).store = Store.set store k v ∧
    (replicate_key cfg store k v).persisted = [Store.set store k v] :=
  ⟨rfl, rfl, rfl⟩

/-- C2 (counterexample): the spec claims the full-sync wait is bounded by
the remaining time until the global deadline, an elapsed deadline with a
pending task being a quorum failure. With one follower, quorum 1 and
deadline 5, a task that completes successfully at time 10 makes the
handler return success at time 10 — past the deadline and not a quorum
failure — so the claim is false. -/
theorem C2_counterexample :
    effQuorum ⟨"leader", 1, ["f1"], 5⟩ = follower_count ⟨"leader", 1, ["f1"], 5⟩ ∧
    (Config.GLOBAL_REQUEST_TIMEOUT_S ⟨"leader", 1, ["f1"], 5⟩) < 10 ∧
    (put_key ⟨"leader", 1, ["f1"], 5⟩ [] "k" "v"
        (fun _ => ⟨10, HttpResult.response 200⟩)).result = PutResult.ok 1 ∧
    (put_key ⟨"leader", 1, ["f1"], 5⟩ [] "k" "v"
        (fun _ => ⟨10, HttpResult.response 200⟩)).returnedAt = 10 := by
  decide

/-- C2 (amended): in full-sync mode the coordinator waits for all tasks
with no bound from the global deadline: it returns at the last task's
completion time, the reported result is unchanged under any change of
`GLOBAL_REQUEST_TIMEOUT_S`, and the write is a replication failure
exactly when the total success count is below the effective quorum. -/
theorem C2_fullSync_ignores_deadline (cfg cfg' : Config) (store : Store)
    (k v : String) (behavior : String → Task)
    (hR : cfg'.ROLE = cfg.ROLE) (hW : cfg'.WRITE_QUORUM = cfg.WRITE_QUORUM)
    (hF : cfg'.FOLLOWER_URLS = cfg.FOLLOWER_URLS)
    (hrole : cfg.ROLE = "leader") (hpos : 0 < effQuorum cfg)
    (hq : effQuorum cfg = follower_count cfg) :
    (put_key cfg' store k v behavior).result
        = (put_key cfg store k v behavior).result ∧
    (put_key cfg store k v behavior).returnedAt
        = gatherTime (cfg.FOLLOWER_URLS.map behavior) ∧
    ((put_key cfg store k v behavior).result
        = PutResult.fullReplicationFailed
            ((cfg.FOLLOWER_URLS.map behavior).countP (fun t => t.ok))
            (effQuorum cfg) ↔
      (((cfg.FOLLOWER_URLS.map behavior).countP (fun t => t.ok)) : ℤ)
          < effQuorum cfg) := by
  have hfc : follower_count cfg' = follower_count cfg := by
    simp [follower_count, hF]
  have hq0 : effQuorum cfg' = effQuorum cfg := by
    simp [effQuorum, hW, hfc]
  have h1 := put_key_fullSync cfg' store k v behavior (hR.trans hrole)
    (by rw [hq0]; exact hpos) (by rw [hq0, hfc, hq])
  have h2 := put_key_fullSync cfg store k v behavior hrole hpos hq
  refine ⟨?_, ?_, ?_⟩
  · rw [h1, h2, hF, hq0]
  · rw [h2]; split_ifs <;> rfl
  · rw [h2]; split_ifs with h
    · exact iff_of_true rfl h
    · exact iff_of_false (by simp) h

/-- C3: a `Write(k, v)` handled by a Leader overwrites the local store
entry for `k` with `v` and persists the result, whatever the follower
tasks do and however the write is then reported; a subsequent `Read(k)`
on that store returns `v`. -/
theorem C3_local_commit (cfg : Config) (store : Store) (k v : String)
    (behavior : String → Task) (hrole : cfg.ROLE = "leader") :
    (put_key cfg store k v behavior).store = Store.set store k v ∧
    (put_key cfg store k v behavior).persisted = [Store.set store k v] ∧
    get_key (put_key cfg store k v behavior).store k = Except.ok v := by
  refine ⟨put_key_store_eq cfg store k v behavior hrole,
    put_key_persisted_eq cfg store k v behavior hrole, ?_⟩
  rw [put_key_store_eq cfg store k v behavior hrole]
  simp [get_key, Store.get?_set_self]

/-- C4: in full-sync mode the coordinator counts the outcomes of all
dispatched tasks; the write is reported ok exactly when the success
count reaches the effective quorum, a lower count is reported as a
full-replication failure carrying that count, and one failed follower
already forces the failure report. -/
theorem C4_fullSync_quorum (cfg : Config) (store : Store) (k v : String)
    (behavior : String → Task) (hrole : cfg.ROLE = "leader")
    (hpos : 0 < effQuorum cfg) (hq : effQuorum cfg = follower_count cfg) :
    ((put_key cfg store k v behavior).result
        = PutResult.ok ((cfg.FOLLOWER_URLS.map behavior).countP (fun t => t.ok)) ↔
      effQuorum cfg
        ≤ (((cfg.FOLLOWER_URLS.map behavior).countP (fun t => t.ok)) : ℤ)) ∧
    ((((cfg.FOLLOWER_URLS.map behavior).countP (fun t => t.ok)) : ℤ)
        < effQuorum cfg →
      (put_key cfg store k v behavior).result
        = PutResult.fullReplicationFailed
            ((cfg.FOLLOWER_URLS.map behavior).countP (fun t => t.ok))
            (effQuorum cfg)) ∧
    ((∃ u ∈ cfg.FOLLOWER_URLS, (behavior u).ok = false) →
      (put_key cfg store k v behavior).result
        = PutResult.fullReplicationFailed
            ((cfg.FOLLOWER_URLS.map behavior).countP (fun t => t.ok))
            (effQuorum cfg)) := by
  have h2 := put_key_fullSync cfg store k v behavior hrole hpos hq
  have hfail : (((cfg.FOLLOWER_URLS.map behavior).countP (fun t => t.ok)) : ℤ)
      < effQuorum cfg →
      (put_key cfg store k v behavior).result
        = PutResult.fullReplicationFailed
            ((cfg.FOLLOWER_URLS.map behavior).countP (fun t => t.ok))
            (effQuorum cfg) := by
    intro h
    rw [h2, if_pos h]
  refine ⟨?_, hfail, ?_⟩
  · rw [h2]; split_ifs with h
    · exact iff_of_false (by simp) (by omega)
    · exact iff_of_true rfl (by omega)
  · rintro ⟨u, hu, hfalse⟩
    apply hfail
    have hle : ((cfg.FOLLOWER_URLS.map behavior).countP (fun t => t.ok))
        ≤ (cfg.FOLLOWER_URLS.map behavior).length :=
      List.countP_le_length _
    have hmem : behavior u ∈ cfg.FOLLOWER_URLS.map behavior :=
      List.mem_map_of_mem behavior hu
    have hne : ((cfg.FOLLOWER_URLS.map behavior).countP (fun t => t.ok))
        ≠ (cfg.FOLLOWER_URLS.map behavior).length := by
      intro heq
      have := List.countP_eq_length.mp heq (behavior u) hmem
      rw [hfalse] at this
      exact Bool.false_ne_true this
    have hlen : (cfg.FOLLOWER_URLS.map behavior).length
        = cfg.FOLLOWER_URLS.length := List.length_map _ _
    have : effQuorum cfg = (cfg.FOLLOWER_URLS.length : ℤ) := hq
    omega

/-- C5: in partial mode, as soon as the running success count reaches
the effective quorum the coordinator returns success with exactly that
count, at the clock of the quorum-reaching completion; the
still-outstanding tasks are handed back as detached work, not awaited
(each of them completes no earlier than the return time) and not
cancelled. -/
theorem C5_semiSync_early_exit (cfg : Config) (store : Store) (k v : String)
    (behavior : String → Task) (hrole : cfg.ROLE = "leader")
    (hpos : 0 < effQuorum cfg) (hlt : effQuorum cfg < follower_count cfg)
    (htimes : ∀ u ∈ cfg.FOLLOWER_URLS, 0 ≤ (behavior u).time)
    (hsucc : effQuorum cfg ≤
      ((runSemiSync cfg.GLOBAL_REQUEST_TIMEOUT_S (effQuorum cfg)
        (cfg.FOLLOWER_URLS.map behavior)).successes : ℤ)) :
    (((runSemiSync cfg.GLOBAL_REQUEST_TIMEOUT_S (effQuorum cfg)
        (cfg.FOLLOWER_URLS.map behavior)).successes : ℤ) = effQuorum cfg) ∧
    (put_key cfg store k v behavior).result
      = PutResult.ok (runSemiSync cfg.GLOBAL_REQUEST_TIMEOUT_S (effQuorum cfg)
          (cfg.FOLLOWER_URLS.map behavior)).successes ∧
    (put_key cfg store k v behavior).detached
      = (runSemiSync cfg.GLOBAL_REQUEST_TIMEOUT_S (effQuorum cfg)
          (cfg.FOLLOWER_URLS.map behavior)).pending ∧
    (put_key cfg store k v behavior).returnedAt
      = (runSemiSync cfg.GLOBAL_REQUEST_TIMEOUT_S (effQuorum cfg)
          (cfg.FOLLOWER_URLS.map behavior)).now ∧
    ∀ x ∈ (runSemiSync cfg.GLOBAL_REQUEST_TIMEOUT_S (effQuorum cfg)
        (cfg.FOLLOWER_URLS.map behavior)).pending,
      (runSemiSync cfg.GLOBAL_REQUEST_TIMEOUT_S (effQuorum cfg)
        (cfg.FOLLOWER_URLS.map behavior)).now ≤ x.time := by
  have hcap := runSemiSync_successes_le cfg.GLOBAL_REQUEST_TIMEOUT_S
    (effQuorum cfg) (cfg.FOLLOWER_URLS.map behavior) (by omega)
  have heq : ((runSemiSync cfg.GLOBAL_REQUEST_TIMEOUT_S (effQuorum cfg)
      (cfg.FOLLOWER_URLS.map behavior)).successes : ℤ) = effQuorum cfg :=
    le_antisymm hcap hsucc
  have hpre : ∀ x ∈ cfg.FOLLOWER_URLS.map behavior, (0 : ℤ) ≤ x.time := by
    intro x hx
    obtain ⟨u, hu, rfl⟩ := List.mem_map.mp hx
    exact htimes u hu
  rw [put_key_semiSync cfg store k v behavior hrole hpos hlt,
    if_neg (not_lt.mpr hsucc)]
  exact ⟨heq, rfl, rfl, rfl,
    runSemiSync_pending_time cfg.GLOBAL_REQUEST_TIMEOUT_S (effQuorum cfg)
      (cfg.FOLLOWER_URLS.map behavior) hpre⟩

/-- C6: in partial mode only completions no later than the global
deadline can be counted; when fewer than the effective quorum of tasks
succeed within the deadline, the write is reported as quorum-not-reached
carrying the success count observed so far — whatever the tasks
completing after the deadline would have contributed. -/
theorem C6_semiSync_deadline_failure (cfg : Config) (store : Store)
    (k v : String) (behavior : String → Task) (hrole : cfg.ROLE = "leader")
    (hpos : 0 < effQuorum cfg) (hlt : effQuorum cfg < follower_count cfg)
    (hlate : (((cfg.FOLLOWER_URLS.map behavior).countP
        (fun x => x.ok && decide (x.time ≤ cfg.GLOBAL_REQUEST_TIMEOUT_S))) : ℤ)
        < effQuorum cfg) :
    ((runSemiSync cfg.GLOBAL_REQUEST_TIMEOUT_S (effQuorum cfg)
        (cfg.FOLLOWER_URLS.map behavior)).successes
      ≤ (cfg.FOLLOWER_URLS.map behavior).countP
          (fun x => x.ok && decide (x.time ≤ cfg.GLOBAL_REQUEST_TIMEOUT_S))) ∧
    (((runSemiSync cfg.GLOBAL_REQUEST_TIMEOUT_S (effQuorum cfg)
        (cfg.FOLLOWER_URLS.map behavior)).successes : ℤ) < effQuorum cfg) ∧
    (put_key cfg store k v behavior).result
      = PutResult.quorumNotReached
          (runSemiSync cfg.GLOBAL_REQUEST_TIMEOUT_S (effQuorum cfg)
            (cfg.FOLLOWER_URLS.map behavior)).successes
          (effQuorum cfg) := by
  have hbound := runSemiSync_successes_bound cfg.GLOBAL_REQUEST_TIMEOUT_S
    (effQuorum cfg) (cfg.FOLLOWER_URLS.map behavior)
  have hb : (runSemiSync cfg.GLOBAL_REQUEST_TIMEOUT_S (effQuorum cfg)
      (cfg.FOLLOWER_URLS.map behavior)).successes
      ≤ (cfg.FOLLOWER_URLS.map behavior).countP
          (fun x => x.ok && decide (x.time ≤ cfg.GLOBAL_REQUEST_TIMEOUT_S)) := by
    omega
  have hlt2 : ((runSemiSync cfg.GLOBAL_REQUEST_TIMEOUT_S (effQuorum cfg)
      (cfg.FOLLOWER_URLS.map behavior)).successes : ℤ) < effQuorum cfg := by
    omega
  rw [put_key_semiSync cfg store k v behavior hrole hpos hlt, if_pos hlt2]
  exact ⟨hb, hlt2, rfl⟩

/-- C7: when the effective quorum is non-positive or there are no
followers, a leader write is reported successful with zero replicated
followers, no task is dispatched and none is left running — for every
possible follower behaviour. -/
theorem C7_no_followers_trivial_success (cfg : Config) (store : Store)
    (k v : String) (behavior : String → Task)
    (hrole : cfg.ROLE = "leader")
    (h : follower_count cfg = 0 ∨ effQuorum cfg ≤ 0) :
    (put_key cfg store k v behavior).result = PutResult.ok 0 ∧
    (put_key cfg store k v behavior).dispatched = [] ∧
    (put_key cfg store k v behavior).detached = [] := by
  rw [put_key_noReplication cfg store k v behavior hrole h]
  exact ⟨rfl, rfl, rfl⟩

/-- C8: a `Write` submitted to a node whose role is not `leader` is
rejected with the role violation before any effect: the store is
unchanged, nothing is persisted, no task is dispatched, and nothing is
left running. -/
theorem C8_write_rejected_off_leader (cfg : Config) (store : Store)
    (k v : String) (behavior : String → Task) (h : cfg.ROLE ≠ "leader") :
    put_key cfg store k v behavior
      = ⟨store, PutResult.roleViolation, [], [], [], 0⟩ :=
  put_key_notLeader cfg store k v behavior h

/-- C9: a per-follower dispatch always resolves to a boolean: it is
`true` exactly on a 2xx response, and a transport error, the per-call
timeout, and every non-2xx response all collapse to the single outcome
`false` — no failure is surfaced in any other form. -/
theorem C9_follower_client_total :
    (∀ r, replicate_to_follower r = true ↔
      ∃ s, r = HttpResult.response s ∧ 200 ≤ s ∧ s ≤ 299) ∧
    replicate_to_follower HttpResult.transportError = false ∧
    replicate_to_follower HttpResult.timeout = false := by
  refine ⟨fun r => ?_, rfl, rfl⟩
  cases r with
  | response s =>
      by_cases h : 200 ≤ s ∧ s ≤ 299 <;>
        simp [replicate_to_follower, raise_for_status, h]
  | transportError => simp [replicate_to_follower]
  | timeout => simp [replicate_to_follower]

/-- C10: the local mutation of a leader `Write` and of a follower
`ApplyFromLeader` touches only the written key: every other key maps
exactly as before. -/
theorem C10_frame (cfg : Config) (store : Store) (k v k' : String)
    (behavior : String → Task) (hne : k' ≠ k) :
    (cfg.ROLE = "leader" →
      (put_key cfg store k v behavior).store.get? k' = store.get? k') ∧
    (replicate_key cfg store k v).store.get? k' = store.get? k' := by
  constructor
  · intro hrole
    rw [put_key_store_eq cfg store k v behavior hrole]
    exact Store.get?_set_ne store k v k' hne
  · exact Store.get?_set_ne store k v k' hne

/-! ### Witnesses: each theorem above with a hypothesis, instantiated at
a concrete input with every hypothesis discharged by evaluation. -/

/-- Witness for C2: one follower, quorum 1, deadline 5; the task
succeeds at time 10; raising the deadline to 100 changes nothing in the
reported result. -/
theorem C2_witness :
    (put_key ⟨"leader", 1, ["f1"], 100⟩ [] "k" "v"
        (fun _ => ⟨10, HttpResult.response 200⟩)).result
      = (put_key ⟨"leader", 1, ["f1"], 5⟩ [] "k" "v"
        (fun _ => ⟨10, HttpResult.response 200⟩)).result :=
  (C2_fullSync_ignores_deadline ⟨"leader", 1, ["f1"], 5⟩
    ⟨"leader", 1, ["f1"], 100⟩ [] "k" "v"
    (fun _ => ⟨10, HttpResult.response 200⟩)
    rfl rfl rfl rfl (by decide) (by decide)).1

/-- Witness for C3: the local apply commits and stays readable although
the only follower is unreachable and the write is reported failed. -/
theorem C3_witness :
    (put_key ⟨"leader", 1, ["f1"], 5⟩ [("k", "old")] "k" "v"
        (fun _ => ⟨1, HttpResult.transportError⟩)).store
      = Store.set [("k", "old")] "k" "v" ∧
    (put_key ⟨"leader", 1, ["f1"], 5⟩ [("k", "old")] "k" "v"
        (fun _ => ⟨1, HttpResult.transportError⟩)).persisted
      = [Store.set [("k", "old")] "k" "v"] ∧
    get_key (put_key ⟨"leader", 1, ["f1"], 5⟩ [("k", "old")] "k" "v"
        (fun _ => ⟨1, HttpResult.transportError⟩)).store "k"
      = Except.ok "v" :=
  C3_local_commit ⟨"leader", 1, ["f1"], 5⟩ [("k", "old")] "k" "v"
    (fun _ => ⟨1, HttpResult.transportError⟩) rfl

/-- Witness for C4 (spec Scenario B): two followers, quorum 2, one
answers 500: the write fails reporting 1 acknowledged of 2 required. -/
theorem C4_witness :
    (put_key ⟨"leader", 2, ["f1", "f2"], 5⟩ [] "k" "v"
        (fun u => if u = "f1" then ⟨1, HttpResult.response 200⟩
          else ⟨1, HttpResult.response 500⟩)).result
      = PutResult.fullReplicationFailed 1 2 := by
  have h := (C4_fullSync_quorum ⟨"leader", 2, ["f1", "f2"], 5⟩ [] "k" "v"
    (fun u => if u = "f1" then ⟨1, HttpResult.response 200⟩
      else ⟨1, HttpResult.response 500⟩) rfl (by decide) (by decide)).2.2
    ⟨"f2", by decide, by decide⟩
  exact h.trans (by decide)

/-- Witness for C5: quorum 1 of 2 followers; the fast follower succeeds
at time 1, the handler returns ok 1 leaving the slow task (completion
time 10) running detached. -/
theorem C5_witness :
    (put_key ⟨"leader", 1, ["f1", "f2"], 5⟩ [] "k" "v"
        (fun u => if u = "f1" then ⟨1, HttpResult.response 200⟩
          else ⟨10, HttpResult.response 200⟩)).result = PutResult.ok 1 ∧
    (put_key ⟨"leader", 1, ["f1", "f2"], 5⟩ [] "k" "v"
        (fun u => if u = "f1" then ⟨1, HttpResult.response 200⟩
          else ⟨10, HttpResult.response 200⟩)).detached
      = [⟨10, HttpResult.response 200⟩] ∧
    (put_key ⟨"leader", 1, ["f1", "f2"], 5⟩ [] "k" "v"
        (fun u => if u = "f1" then ⟨1, HttpResult.response 200⟩
          else ⟨10, HttpResult.response 200⟩)).returnedAt = 1 := by
  have h := C5_semiSync_early_exit ⟨"leader", 1, ["f1", "f2"], 5⟩ [] "k" "v"
    (fun u => if u = "f1" then ⟨1, HttpResult.response 200⟩
      else ⟨10, HttpResult.response 200⟩)
    rfl (by decide) (by decide) (by decide) (by decide)
  exact ⟨h.2.1.trans (by decide), h.2.2.1.trans (by decide),
    h.2.2.2.1.trans (by decide)⟩

/-- Witness for C6: quorum 1 of 2 followers, deadline 5; both followers
would succeed at time 10, so no success lands within the deadline: the
write fails with 0 acknowledged although the stragglers reach quorum. -/
theorem C6_witness :
    (put_key ⟨"leader", 1, ["f1", "f2"], 5⟩ [] "k" "v"
        (fun _ => ⟨10, HttpResult.response 200⟩)).result
      = PutResult.quorumNotReached 0 1 ∧
    effQuorum ⟨"leader", 1, ["f1", "f2"], 5⟩
      ≤ ((((⟨"leader", 1, ["f1", "f2"], 5⟩ : Config).FOLLOWER_URLS.map
          (fun _ => (⟨10, HttpResult.response 200⟩ : Task))).countP
            (fun t => t.ok)) : ℤ) := by
  have h := (C6_semiSync_deadline_failure ⟨"leader", 1, ["f1", "f2"], 5⟩ [] "k" "v"
    (fun _ => ⟨10, HttpResult.response 200⟩) rfl (by decide) (by decide)
    (by decide)).2.2
  exact ⟨h.trans (by decide), by decide⟩

/-- Witness for C7: a follower is configured but the write quorum is 0:
the write succeeds with zero replicated followers and no dispatch, the
follower being unreachable notwithstanding. -/
theorem C7_witness :
    (put_key ⟨"leader", 0, ["f1"], 5⟩ [] "k" "v"
        (fun _ => ⟨1, HttpResult.transportError⟩)).result = PutResult.ok 0 ∧
    (put_key ⟨"leader", 0, ["f1"], 5⟩ [] "k" "v"
        (fun _ => ⟨1, HttpResult.transportError⟩)).dispatched = [] ∧
    (put_key ⟨"leader", 0, ["f1"], 5⟩ [] "k" "v"
        (fun _ => ⟨1, HttpResult.transportError⟩)).detached = [] :=
  C7_no_followers_trivial_success ⟨"leader", 0, ["f1"], 5⟩ [] "k" "v"
    (fun _ => ⟨1, HttpResult.transportError⟩) rfl (by decide)

/-- Witness for C8: a write submitted to a follower-configured node is
rejected with no effect at all. -/
theorem C8_witness :
    put_key ⟨"follower", 3, [], 5⟩ [("a", "b")] "k" "v"
        (fun _ => ⟨1, HttpResult.response 200⟩)
      = ⟨[("a", "b")], PutResult.roleViolation, [], [], [], 0⟩ :=
  C8_write_rejected_off_leader ⟨"follower", 3, [], 5⟩ [("a", "b")] "k" "v"
    (fun _ => ⟨1, HttpResult.response 200⟩) (by decide)

/-- Witness for C10: writing key `k` leaves the binding of key `a`
untouched, on the leader write path and on the replication-apply path. -/
theorem C10_witness :
    ((⟨"leader", 1, ["f1"], 5⟩ : Config).ROLE = "leader" →
      (put_key ⟨"leader", 1, ["f1"], 5⟩ [("a", "b")] "k" "v"
          (fun _ => ⟨1, HttpResult.response 200⟩)).store.get? "a"
        = Store.get? [("a", "b")] "a") ∧
    (replicate_key ⟨"leader", 1, ["f1"], 5⟩ [("a", "b")] "k" "v").store.get? "a"
      = Store.get? [("a", "b")] "a" :=
  C10_frame ⟨"leader", 1, ["f1"], 5⟩ [("a", "b")] "k" "v" "a"
    (fun _ => ⟨1, HttpResult.response 200⟩) (by decide)

end ReplKV
